import Mathlib

/-!
Shallow embedding of `src/tinygrad/runtime/ops_gpu.py` (tinygrad OpenCL runtime).

The Python module wraps pyopencl: device-context construction (`_CL`),
buffer allocation and host transfers (`CLBuffer`), program compilation
(`CLProgram.__init__`) and kernel launch (`CLProgram.__call__`).

Device-side effects (image/buffer creation, copy enqueues, kernel enqueues,
queue fences) are modelled as an explicit event trace; fallible Python code
(assert, dict lookup, list indexing, build failure) returns `Except`.
Machine floats in the timing path are modelled over `ℚ`.
-/

namespace OpsGpu

/-- Element-type descriptor.  `DType`/`ImageDType` live in `tinygrad/helpers.py`,
which is not part of the sampled source; the fields here are exactly those
`ops_gpu.py` reads: `name`, `itemsize`, `shape` (image dtypes only), and the
`isImage` flag standing for the Python `isinstance(dtype, ImageDType)` test. -/
structure DType where
  name : String
  itemsize : Nat
  shape : List Nat
  isImage : Bool
deriving DecidableEq, Repr

/-- Auxiliary for `pyStartswith`: does the first character list lead the
second? -/
def leadsWith : List Char → List Char → Bool
  | [], _ => true
  | _ :: _, [] => false
  | p :: ps, c :: cs => p == c && leadsWith ps cs

/-- Python `str.startswith(pat)`, modelled over the character sequence. -/
def pyStartswith (s pat : String) : Bool := leadsWith pat.data s.data

/-- Modelled from the spec: the dtype taxonomy of `tinygrad/helpers.py` is not
under `src/`.  Per the spec, the element types with image (texture) backing are
exactly the half/float image dtypes; in the repository their `name` values are
the image-prefixed names (imageh, imagef), and no non-image dtype name starts
with "image".  A dtype is well formed when its name-prefix test agrees with its
`ImageDType` class membership. -/
def DTypeWF (d : DType) : Prop := pyStartswith d.name "image" = d.isImage

instance (d : DType) : Decidable (DTypeWF d) := by
  unfold DTypeWF; infer_instance

/-- `tinygrad.helpers.prod`: product of a list of dimensions (math.prod). -/
def prod (xs : List Nat) : Nat := xs.foldl (fun a b => a * b) 1

/-- OpenCL image channel types used by the dict literal in `CLBuffer.__init__`. -/
inductive ChannelType where
  | HALF_FLOAT
  | FLOAT
deriving DecidableEq, Repr

/-- The dict literal
  (2 maps to cl.channel_type.HALF_FLOAT, 4 maps to cl.channel_type.FLOAT)
indexed by `dtype.itemsize`; `none` models the Python KeyError on any other key. -/
def channelTypeOfItemsize (n : Nat) : Option ChannelType :=
  if n = 2 then some ChannelType.HALF_FLOAT
  else if n = 4 then some ChannelType.FLOAT
  else none

/-- Device-side commands issued through pyopencl, in program order. -/
inductive CLEvent where
  /-- `cl.Image(ctx, READ_WRITE, fmt, shape=(cols, rows))` with the given
  channel type; the RGBA channel order is fixed in the source. -/
  | createImage (ct : ChannelType) (cols rows : Nat)
  /-- `cl.Buffer(ctx, READ_WRITE, bytes)`. -/
  | createBuffer (bytes : Nat)
  /-- `cl.enqueue_copy(queue, dst, src, is_blocking=b)`. -/
  | enqueueCopy (blocking : Bool)
  /-- kernel dispatch enqueued on the queue. -/
  | enqueueKernel
  /-- `CL.cl_queue.finish()`: host blocks until the queue drains. -/
  | finish
deriving DecidableEq, Repr

/-- Python exceptions raised by the embedded code. -/
inductive PyError where
  | keyError (k : Nat)
  | assertionError (msg : String)
  | indexError
deriving DecidableEq, Repr

/-- The state `CLBuffer.__init__` hands to `RawBufferCopyInOut.__init__`:
size, dtype, and whether `_buf` is an image object. -/
structure CLBuffer where
  size : Nat
  dtype : DType
  bufIsImage : Bool
deriving DecidableEq, Repr

/-- `CLBuffer.__init__(size, dtype)`.  Returns the trace of device-side events
issued before returning or raising, together with the result.  Mirrors the
source order exactly: for an `ImageDType`, the channel-type dict lookup runs
first (KeyError on a width other than 2 or 4), then `cl.Image` is created with
shape `(dtype.shape[1], dtype.shape[0])`, and only then does
`assert size == prod(dtype.shape)` run.  Otherwise a linear `cl.Buffer` of
`size * dtype.itemsize` bytes is created. -/
def CLBuffer.init (size : Nat) (dtype : DType) :
    List CLEvent × Except PyError CLBuffer :=
  if dtype.isImage then
    match channelTypeOfItemsize dtype.itemsize with
    | none => ([], Except.error (PyError.keyError dtype.itemsize))
    | some ct =>
      let ev := CLEvent.createImage ct (dtype.shape.getD 1 0) (dtype.shape.getD 0 0)
      if size = prod dtype.shape then
        ([ev], Except.ok ⟨size, dtype, true⟩)
      else
        ([ev], Except.error (PyError.assertionError
          ("image size mismatch " ++ toString size ++ " != " ++ toString dtype.shape)))
  else
    ([CLEvent.createBuffer (size * dtype.itemsize)],
      Except.ok ⟨size, dtype, false⟩)

/-- `CLBuffer._copyin`: asserts `not self.dtype.name.startswith("image")`
(the message in the source reads "can't copyin images"; the apostrophe is
dropped here), then enqueues a non-blocking host-to-device copy. -/
def CLBuffer.copyin (self : CLBuffer) : List CLEvent × Except PyError Unit :=
  if pyStartswith self.dtype.name "image" then
    ([], Except.error (PyError.assertionError "cant copyin images"))
  else
    ([CLEvent.enqueueCopy false], Except.ok ())

/-- `CLBuffer._copyout`: same name-prefix assertion, then enqueues a blocking
device-to-host copy. -/
def CLBuffer.copyout (self : CLBuffer) : List CLEvent × Except PyError Unit :=
  if pyStartswith self.dtype.name "image" then
    ([], Except.error (PyError.assertionError "cant copyout images"))
  else
    ([CLEvent.enqueueCopy true], Except.ok ())

/-- One OpenCL platform: the devices it reports for
`device_type=GPU` and `device_type=CPU`.  Devices are identified by name. -/
structure ClPlatform where
  gpus : List String
  cpus : List String
deriving DecidableEq, Repr

/-- The context `_CL.__init__` produces: bound to exactly one device. -/
structure CLContext where
  device : String
deriving DecidableEq, Repr

/-- `_CL.__init__`.  `platforms` models `cl.get_platforms()`, `clDeviceEnv`
the `CL_DEVICE` environment override (default 0), `debug` the DEBUG level.
GPU devices of all platforms are gathered first; only when that list is empty
are CPU devices gathered.  `devices[getenv("CL_DEVICE", 0)]` is evaluated both
by the optional one-line notice and by `cl.Context(...)`, so an out-of-range
index raises IndexError on every path and no context is produced.  Returns the
printed lines and the result. -/
def clInit (platforms : List ClPlatform) (clDeviceEnv debug : Nat) :
    List String × Except PyError CLContext :=
  let gpuDevs := (platforms.map ClPlatform.gpus).flatten
  let devices := if gpuDevs.length = 0 then (platforms.map ClPlatform.cpus).flatten else gpuDevs
  match devices[clDeviceEnv]? with
  | none => ([], Except.error PyError.indexError)
  | some d =>
    let printed := if devices.length > 1 ∨ debug ≥ 1 then ["using " ++ d] else []
    (printed, Except.ok ⟨d⟩)

/-- Scalar argument dtypes accepted by pyopencl `set_scalar_arg_dtypes`
(the argdtypes tuple handed to `CLProgram.__init__`). -/
inductive ScalarDType where
  | int32
  | int64
deriving DecidableEq, Repr

/-- pyopencl scalar coercion: a host integer bound to a declared native scalar
type is wrapped to that type's two's-complement range (numpy conversion
semantics).  This is the library behavior `set_scalar_arg_dtypes` fixes once
per program. -/
def coerceScalar : ScalarDType → Int → Int
  | ScalarDType.int32, v => (v + 2 ^ 31) % 2 ^ 32 - 2 ^ 31
  | ScalarDType.int64, v => (v + 2 ^ 63) % 2 ^ 64 - 2 ^ 63

/-- A launch argument: a `CLBuffer` or a raw host scalar. -/
inductive Arg where
  | buf (b : CLBuffer)
  | scalar (v : Int)
deriving DecidableEq, Repr

/-- What the kernel actually receives for one argument: the buffer's native
backing handle (`x._buf`, represented by the buffer state itself) or a scalar
value after any declared coercion. -/
inductive ResolvedArg where
  | handle (b : CLBuffer)
  | raw (v : Int)
deriving DecidableEq, Repr

/-- Resolution of one argument at position with declared scalar dtype `dt`
(`none` at buffer positions or when no signature was given):
`x._buf if isinstance(x, CLBuffer) else x`, with pyopencl applying the
declared scalar dtype to non-buffer arguments. -/
def resolveArg (dt : Option ScalarDType) : Arg → ResolvedArg
  | Arg.buf b => ResolvedArg.handle b
  | Arg.scalar v =>
    match dt with
    | some d => ResolvedArg.raw (coerceScalar d v)
    | none => ResolvedArg.raw v

/-- Resolution of the whole argument list under the program's fixed signature
(`none` when `argdtypes` was not provided at construction). -/
def resolveArgs (argdtypes : Option (List (Option ScalarDType))) (args : List Arg) :
    List ResolvedArg :=
  match argdtypes with
  | none => args.map (resolveArg none)
  | some dts => List.zipWith resolveArg dts args

/-- The compiled-program state after a successful `CLProgram.__init__`:
name, the fixed scalar-argument signature, and the resolved entry point
(`self.clprg = self._clprg.__getattr__(name)`). -/
structure CLProgram where
  name : String
  argdtypes : Option (List (Option ScalarDType))
  entry : String
deriving DecidableEq, Repr

/-- The error propagated out of a failed `CLProgram.__init__`: the native
`cl.RuntimeError` message, together with the program source (or binary) text
`prg` the failing build was invoked on, which remains attached to the raised
build error for postmortem inspection. -/
structure BuildFailure where
  nativeMsg : String
  src : String
deriving DecidableEq, Repr

/-- `CLProgram.__init__(name, prg, binary, argdtypes)`.  The outcome of the
native `clprogram.build()` call is an input (`buildResult`): `ok` for a
successful build, `error msg` for the native compiler's failure diagnostic.
On failure the source prints "FAILED TO BUILD" plus the program text when
`DEBUG >= 3`, then re-raises; the entry-point resolution and
`set_scalar_arg_dtypes` lines are never reached.  On success the entry point
`name` is resolved and the scalar signature fixed.  (The `DEBUG >= 5`
binary-dump/disassembly path on the success branch is diagnostic-only and not
modelled.)  Returns the printed lines and the result. -/
def CLProgram.init (name prg : String) (buildResult : Except String Unit)
    (argdtypes : Option (List (Option ScalarDType))) (debug : Nat) :
    List String × Except BuildFailure CLProgram :=
  match buildResult with
  | Except.error msg =>
    ((if debug ≥ 3 then ["FAILED TO BUILD " ++ prg] else []),
      Except.error ⟨msg, prg⟩)
  | Except.ok _ => ([], Except.ok ⟨name, argdtypes, name⟩)

/-- Profiling timestamps of the launch event, in nanoseconds
(`e.profile.start` and `e.profile.end`; `end` is a Lean keyword, hence `stop`). -/
structure Profile where
  start : Nat
  stop : Nat
deriving DecidableEq, Repr

/-- `OSX_TIMING_RATIO = (125/3) if OSX else 1.0`, over ℚ. -/
def osxTimingRatio (osx : Bool) : ℚ := if osx then 125 / 3 else 1

/-- `CLProgram.__call__(global_size, local_size, *bufs, wait=False)`.
Arguments are resolved through the program's fixed signature; the kernel is
enqueued; if `wait` the queue is drained (`finish`) and
`((e.profile.end - e.profile.start) * OSX_TIMING_RATIO) * 1e-9` is returned,
else `None`.  Work sizes do not affect the modelled outcome and are omitted.
Returns (event trace, resolved arguments, optional duration in seconds). -/
def CLProgram.call (p : CLProgram) (pr : Profile) (args : List Arg)
    (wait : Bool) (osx : Bool) : List CLEvent × List ResolvedArg × Option ℚ :=
  let resolved := resolveArgs p.argdtypes args
  if wait then
    ([CLEvent.enqueueKernel, CLEvent.finish], resolved,
      some (((pr.stop : ℚ) - (pr.start : ℚ)) * osxTimingRatio osx * (1 / 1000000000)))
  else
    ([CLEvent.enqueueKernel], resolved, none)

/-! Helper lemmas. -/

/-- On any successful `CLBuffer.__init__`, the stored dtype is the requested one. -/
theorem CLBuffer.init_dtype (size : Nat) (d : DType) (b : CLBuffer)
    (hok : (CLBuffer.init size d).2 = Except.ok b) : b.dtype = d := by
  unfold CLBuffer.init at hok
  by_cases himg : d.isImage
  · simp only [himg, if_true] at hok
    cases hct : channelTypeOfItemsize d.itemsize <;> rw [hct] at hok
    · simp at hok
    · by_cases hsz : size = prod d.shape <;> simp [hsz] at hok
      exact hok.symm ▸ rfl
  · simp only [himg, if_false] at hok
    simp at hok
    exact hok.symm ▸ rfl

/-! Claim theorems. -/

/-- C1 counterexample: at `size = 5` with the half-float image dtype of shape
`[2, 2]`, construction does fail with the configuration (assertion) error, but
the image object HAS been created on the device before the size check fired:
the event trace preceding the error contains the `cl.Image` creation, refuting
"no image object is created on the device before the size check signals the
error". -/
theorem C1_counterexample :
    (CLBuffer.init 5 ⟨"imageh", 2, [2, 2], true⟩).2 =
      Except.error (PyError.assertionError "image size mismatch 5 != [2, 2]") ∧
    CLEvent.createImage ChannelType.HALF_FLOAT 2 2 ∈
      (CLBuffer.init 5 ⟨"imageh", 2, [2, 2], true⟩).1 := by
  constructor
  · rfl
  · simp [CLBuffer.init, channelTypeOfItemsize, prod]

/-- C1 (amended): for every allocation with an image element type of channel
width 2 or 4 and `size ≠ rows*cols`, construction fails with the assertion
error and no buffer object is produced; however the image object is created on
the device first — the trace at the failure is exactly the one `cl.Image`
creation. -/
theorem C1_amended_check (size : Nat) (d : DType) (ct : ChannelType)
    (himg : d.isImage = true)
    (hct : channelTypeOfItemsize d.itemsize = some ct)
    (hsz : size ≠ prod d.shape) :
    CLBuffer.init size d =
      ([CLEvent.createImage ct (d.shape.getD 1 0) (d.shape.getD 0 0)],
        Except.error (PyError.assertionError
          ("image size mismatch " ++ toString size ++ " != " ++ toString d.shape))) := by
  simp [CLBuffer.init, himg, hct, hsz]

/-- C1 witness: the amended theorem applied at `size = 5`, dtype
`imageh 2 [2, 2]`. -/
theorem C1_witness :
    CLBuffer.init 5 ⟨"imageh", 2, [2, 2], true⟩ =
      ([CLEvent.createImage ChannelType.HALF_FLOAT 2 2],
        Except.error (PyError.assertionError
          ("image size mismatch " ++ toString 5 ++ " != " ++ toString [2, 2]))) :=
  C1_amended_check 5 ⟨"imageh", 2, [2, 2], true⟩ ChannelType.HALF_FLOAT rfl rfl (by decide)

/-- C2: when the native build fails, construction propagates a build-failure
error carrying the original program text for postmortem inspection, prints the
failure diagnostic (naming the failing source) exactly when `DEBUG >= 3`, and
resolves no entry point: no program object exists after the failure. -/
theorem C2_build_failure (name prg msg : String)
    (argdtypes : Option (List (Option ScalarDType))) (debug : Nat) :
    (CLProgram.init name prg (Except.error msg) argdtypes debug).2 =
      Except.error ⟨msg, prg⟩ ∧
    ((CLProgram.init name prg (Except.error msg) argdtypes debug).1 =
      if debug ≥ 3 then ["FAILED TO BUILD " ++ prg] else []) ∧
    (∀ p : CLProgram,
      (CLProgram.init name prg (Except.error msg) argdtypes debug).2 ≠ Except.ok p) := by
  refine ⟨rfl, rfl, ?_⟩
  intro p h
  simp [CLProgram.init] at h

/-- C2 witness: the theorem applied at a concrete malformed program with
`DEBUG = 0`. -/
theorem C2_witness :
    (CLProgram.init "k" "bad src" (Except.error "err") none 0).2 =
      Except.error ⟨"err", "bad src"⟩ ∧
    ((CLProgram.init "k" "bad src" (Except.error "err") none 0).1 =
      if 0 ≥ 3 then ["FAILED TO BUILD " ++ "bad src"] else []) ∧
    (∀ p : CLProgram,
      (CLProgram.init "k" "bad src" (Except.error "err") none 0).2 ≠ Except.ok p) :=
  C2_build_failure "k" "bad src" "err" none 0

/-- C3: for every well-formed dtype (the repository's dtypes: image dtypes are
exactly the image-named ones), a successfully constructed image-backed buffer
rejects both copyin and copyout with the assertion error and enqueues no
transfer, while a non-image buffer enqueues the (non-blocking in, blocking
out) transfer. -/
theorem C3_copy_restriction (size : Nat) (d : DType) (b : CLBuffer)
    (hwf : DTypeWF d) (hok : (CLBuffer.init size d).2 = Except.ok b) :
    (d.isImage = true →
      CLBuffer.copyin b = ([], Except.error (PyError.assertionError "cant copyin images")) ∧
      CLBuffer.copyout b = ([], Except.error (PyError.assertionError "cant copyout images"))) ∧
    (d.isImage = false →
      CLBuffer.copyin b = ([CLEvent.enqueueCopy false], Except.ok ()) ∧
      CLBuffer.copyout b = ([CLEvent.enqueueCopy true], Except.ok ())) := by
  have hbd : b.dtype = d := CLBuffer.init_dtype size d b hok
  unfold DTypeWF at hwf
  constructor
  · intro himg
    constructor <;> simp [CLBuffer.copyin, CLBuffer.copyout, hbd, hwf, himg]
  · intro himg
    constructor <;> simp [CLBuffer.copyin, CLBuffer.copyout, hbd, hwf, himg]

/-- C3 witness: the theorem applied to the half-float image dtype of shape
`[2, 2]` at `size = 4` (a successful image allocation). -/
theorem C3_witness :
    ((⟨"imageh", 2, [2, 2], true⟩ : DType).isImage = true →
      CLBuffer.copyin ⟨4, ⟨"imageh", 2, [2, 2], true⟩, true⟩ =
        ([], Except.error (PyError.assertionError "cant copyin images")) ∧
      CLBuffer.copyout ⟨4, ⟨"imageh", 2, [2, 2], true⟩, true⟩ =
        ([], Except.error (PyError.assertionError "cant copyout images"))) ∧
    ((⟨"imageh", 2, [2, 2], true⟩ : DType).isImage = false →
      CLBuffer.copyin ⟨4, ⟨"imageh", 2, [2, 2], true⟩, true⟩ =
        ([CLEvent.enqueueCopy false], Except.ok ()) ∧
      CLBuffer.copyout ⟨4, ⟨"imageh", 2, [2, 2], true⟩, true⟩ =
        ([CLEvent.enqueueCopy true], Except.ok ())) :=
  C3_copy_restriction 4 ⟨"imageh", 2, [2, 2], true⟩ ⟨4, ⟨"imageh", 2, [2, 2], true⟩, true⟩
    (by decide) rfl

/-- C4: a launch with `wait = true` returns exactly
`(end - start) * multiplier * 1e-9`, where the multiplier is `125/3` on the
designated host platform (macOS) and the identity `1` elsewhere. -/
theorem C4_timing (p : CLProgram) (pr : Profile) (args : List Arg) (osx : Bool) :
    (CLProgram.call p pr args true osx).2.2 =
      some (((pr.stop : ℚ) - (pr.start : ℚ)) *
        (if osx then (125 : ℚ) / 3 else 1) * (1 / 1000000000)) := by
  cases osx <;> rfl

/-- C4 witness: the theorem applied on the macOS path at profiling timestamps
100 and 400. -/
theorem C4_witness :
    (CLProgram.call ⟨"k", none, "k"⟩ ⟨100, 400⟩ [] true true).2.2 =
      some ((((⟨100, 400⟩ : Profile).stop : ℚ) - ((⟨100, 400⟩ : Profile).start : ℚ)) *
        (if true then (125 : ℚ) / 3 else 1) * (1 / 1000000000)) :=
  C4_timing ⟨"k", none, "k"⟩ ⟨100, 400⟩ [] true

/-- C5: GPU devices of all platforms are gathered first and CPU devices serve
only as a fallback when no GPU exists; with zero devices on both paths the
construction raises (no context is produced); on success the context is bound
to exactly the device selected by the configurable index. -/
theorem C5_device_selection (platforms : List ClPlatform) (idx debug : Nat) :
    (((platforms.map ClPlatform.gpus).flatten = [] →
      (platforms.map ClPlatform.cpus).flatten = [] →
      (clInit platforms idx debug).2 = Except.error PyError.indexError)) ∧
    (∀ dev, ((platforms.map ClPlatform.gpus).flatten)[idx]? = some dev →
      (clInit platforms idx debug).2 = Except.ok ⟨dev⟩) ∧
    ((platforms.map ClPlatform.gpus).flatten = [] →
      ∀ dev, ((platforms.map ClPlatform.cpus).flatten)[idx]? = some dev →
      (clInit platforms idx debug).2 = Except.ok ⟨dev⟩) := by
  refine ⟨?_, ?_, ?_⟩
  · intro hg hc
    simp [clInit, hg, hc]
  · intro dev hdev
    have hne : ¬ ((platforms.map ClPlatform.gpus).flatten.length = 0) := by
      intro h0
      rw [List.length_eq_zero] at h0
      rw [h0] at hdev
      simp at hdev
    simp only [clInit]
    rw [if_neg hne, hdev]
  · intro hg dev hdev
    simp only [clInit, hg, List.length_nil, if_pos]
    rw [hdev]

/-- C5 witness: the theorem applied to one platform exposing one GPU device at
index 0; the GPU-path conjunct yields the bound context. -/
theorem C5_witness :
    (clInit [⟨["gpu0"], ["cpu0"]⟩] 0 0).2 = Except.ok ⟨"gpu0"⟩ :=
  (C5_device_selection [⟨["gpu0"], ["cpu0"]⟩] 0 0).2.1 "gpu0" rfl

/-- C6: an image-dtype allocation creates an RGBA texture of shape
`(cols, rows)` with half-float channels at width 2 and full-float channels at
width 4; any other dtype gets a linear read/write buffer of exactly
`size * itemsize` bytes. -/
theorem C6_backing_store (size : Nat) (d : DType) :
    (d.isImage = true → d.itemsize = 2 →
      (CLBuffer.init size d).1 =
        [CLEvent.createImage ChannelType.HALF_FLOAT (d.shape.getD 1 0) (d.shape.getD 0 0)]) ∧
    (d.isImage = true → d.itemsize = 4 →
      (CLBuffer.init size d).1 =
        [CLEvent.createImage ChannelType.FLOAT (d.shape.getD 1 0) (d.shape.getD 0 0)]) ∧
    (d.isImage = false →
      CLBuffer.init size d =
        ([CLEvent.createBuffer (size * d.itemsize)], Except.ok ⟨size, d, false⟩)) := by
  refine ⟨?_, ?_, ?_⟩
  · intro himg hw
    by_cases hsz : size = prod d.shape <;>
      simp [CLBuffer.init, himg, hw, hsz, channelTypeOfItemsize]
  · intro himg hw
    by_cases hsz : size = prod d.shape <;>
      simp [CLBuffer.init, himg, hw, hsz, channelTypeOfItemsize]
  · intro himg
    simp [CLBuffer.init, himg]

/-- C6 witness: the theorem applied to the full-float image dtype of shape
`[2, 3]` at `size = 6`. -/
theorem C6_witness :
    (CLBuffer.init 6 ⟨"imagef", 4, [2, 3], true⟩).1 =
      [CLEvent.createImage ChannelType.FLOAT
        (([2, 3] : List Nat).getD 1 0) (([2, 3] : List Nat).getD 0 0)] :=
  (C6_backing_store 6 ⟨"imagef", 4, [2, 3], true⟩).2.1 rfl rfl

/-- C7: a launch with `wait = false` returns no result and never drains the
queue (no fence event); a launch with `wait = true` drains the queue and
returns a duration value. -/
theorem C7_wait_optionality (p : CLProgram) (pr : Profile) (args : List Arg) (osx : Bool) :
    ((CLProgram.call p pr args false osx).2.2 = none ∧
      CLEvent.finish ∉ (CLProgram.call p pr args false osx).1) ∧
    (∃ t : ℚ, (CLProgram.call p pr args true osx).2.2 = some t) ∧
    CLEvent.finish ∈ (CLProgram.call p pr args true osx).1 := by
  refine ⟨⟨rfl, ?_⟩, ⟨_, rfl⟩, ?_⟩ <;> simp [CLProgram.call]

/-- C7 witness: the theorem applied at a concrete program, profile and empty
argument list. -/
theorem C7_witness :
    ((CLProgram.call ⟨"k", none, "k"⟩ ⟨0, 7⟩ [] false false).2.2 = none ∧
      CLEvent.finish ∉ (CLProgram.call ⟨"k", none, "k"⟩ ⟨0, 7⟩ [] false false).1) ∧
    (∃ t : ℚ, (CLProgram.call ⟨"k", none, "k"⟩ ⟨0, 7⟩ [] true false).2.2 = some t) ∧
    CLEvent.finish ∈ (CLProgram.call ⟨"k", none, "k"⟩ ⟨0, 7⟩ [] true false).1 :=
  C7_wait_optionality ⟨"k", none, "k"⟩ ⟨0, 7⟩ [] false

/-- C8: each buffer argument resolves to its native backing handle, each
scalar passes through (coerced to the declared native scalar type when a
signature was fixed at construction), and the resolved argument list of a
launch is a function of the program's fixed signature and the arguments alone,
hence identical across repeated calls. -/
theorem C8_argument_resolution (p : CLProgram) (pr₁ pr₂ : Profile) (args : List Arg)
    (w₁ w₂ osx₁ osx₂ : Bool) (dt : Option ScalarDType) (sd : ScalarDType)
    (b : CLBuffer) (v : Int) :
    resolveArg dt (Arg.buf b) = ResolvedArg.handle b ∧
    resolveArg (some sd) (Arg.scalar v) = ResolvedArg.raw (coerceScalar sd v) ∧
    resolveArg none (Arg.scalar v) = ResolvedArg.raw v ∧
    (CLProgram.call p pr₁ args w₁ osx₁).2.1 = resolveArgs p.argdtypes args ∧
    (CLProgram.call p pr₁ args w₁ osx₁).2.1 = (CLProgram.call p pr₂ args w₂ osx₂).2.1 := by
  refine ⟨rfl, rfl, rfl, ?_, ?_⟩ <;> cases w₁ <;> cases w₂ <;> rfl

/-- C8 witness: the theorem applied to a program with a fixed int32 scalar
signature, a 64-bit host scalar, and two launches differing in profile, wait
flag and platform. -/
theorem C8_witness :
    resolveArg none (Arg.buf ⟨1, ⟨"float", 4, [], false⟩, false⟩) =
      ResolvedArg.handle ⟨1, ⟨"float", 4, [], false⟩, false⟩ ∧
    resolveArg (some ScalarDType.int32) (Arg.scalar 5000000000) =
      ResolvedArg.raw (coerceScalar ScalarDType.int32 5000000000) ∧
    resolveArg none (Arg.scalar 5000000000) = ResolvedArg.raw 5000000000 ∧
    (CLProgram.call ⟨"k", some [some ScalarDType.int32], "k"⟩ ⟨0, 1⟩
      [Arg.scalar 5000000000] false false).2.1 =
      resolveArgs (CLProgram.mk "k" (some [some ScalarDType.int32]) "k").argdtypes
        [Arg.scalar 5000000000] ∧
    (CLProgram.call ⟨"k", some [some ScalarDType.int32], "k"⟩ ⟨0, 1⟩
      [Arg.scalar 5000000000] false false).2.1 =
    (CLProgram.call ⟨"k", some [some ScalarDType.int32], "k"⟩ ⟨2, 3⟩
      [Arg.scalar 5000000000] true true).2.1 :=
  C8_argument_resolution ⟨"k", some [some ScalarDType.int32], "k"⟩ ⟨0, 1⟩ ⟨2, 3⟩
    [Arg.scalar 5000000000] false true false true none ScalarDType.int32
    ⟨1, ⟨"float", 4, [], false⟩, false⟩ 5000000000

/-- C9: an image-dtype allocation whose channel width is neither 2 nor 4 fails
with the failed dict lookup (KeyError) before any device object is created
(empty event trace); the width-to-channel-type mapping is defined exactly on
widths 2 and 4. -/
theorem C9_width_partiality (size : Nat) (d : DType) (m : Nat)
    (himg : d.isImage = true) (h2 : d.itemsize ≠ 2) (h4 : d.itemsize ≠ 4) :
    CLBuffer.init size d = ([], Except.error (PyError.keyError d.itemsize)) ∧
    ((channelTypeOfItemsize m).isSome = true ↔ m = 2 ∨ m = 4) := by
  constructor
  · have hnone : channelTypeOfItemsize d.itemsize = none := by
      simp [channelTypeOfItemsize, h2, h4]
    simp [CLBuffer.init, himg, hnone]
  · by_cases hm2 : m = 2 <;> by_cases hm4 : m = 4 <;>
      simp [channelTypeOfItemsize, hm2, hm4]

/-- C9 witness: the theorem applied to an image dtype of channel width 3. -/
theorem C9_witness :
    CLBuffer.init 4 ⟨"imageh", 3, [2, 2], true⟩ =
      ([], Except.error (PyError.keyError 3)) ∧
    ((channelTypeOfItemsize 3).isSome = true ↔ 3 = 2 ∨ 3 = 4) :=
  C9_width_partiality 4 ⟨"imageh", 3, [2, 2], true⟩ 3 rfl (by decide) (by decide)

/-- C10: the copy rejection test is the name prefix "image", not the
`ImageDType` class test used at allocation: a dtype whose name starts with
"image" but which is not an image dtype is allocated as a linear buffer, yet
every copyin and copyout on that buffer is rejected with no transfer
enqueued. -/
theorem C10_predicate_mismatch (size : Nat) (d : DType)
    (hname : pyStartswith d.name "image" = true) (himg : d.isImage = false) :
    CLBuffer.init size d =
      ([CLEvent.createBuffer (size * d.itemsize)], Except.ok ⟨size, d, false⟩) ∧
    CLBuffer.copyin ⟨size, d, false⟩ =
      ([], Except.error (PyError.assertionError "cant copyin images")) ∧
    CLBuffer.copyout ⟨size, d, false⟩ =
      ([], Except.error (PyError.assertionError "cant copyout images")) := by
  refine ⟨?_, ?_, ?_⟩
  · simp [CLBuffer.init, himg]
  · simp [CLBuffer.copyin, hname]
  · simp [CLBuffer.copyout, hname]

/-- C10 witness: the theorem applied to a non-image dtype named "imagez". -/
theorem C10_witness :
    CLBuffer.init 8 ⟨"imagez", 4, [], false⟩ =
      ([CLEvent.createBuffer (8 * 4)], Except.ok ⟨8, ⟨"imagez", 4, [], false⟩, false⟩) ∧
    CLBuffer.copyin ⟨8, ⟨"imagez", 4, [], false⟩, false⟩ =
      ([], Except.error (PyError.assertionError "cant copyin images")) ∧
    CLBuffer.copyout ⟨8, ⟨"imagez", 4, [], false⟩, false⟩ =
      ([], Except.error (PyError.assertionError "cant copyout images")) :=
  C10_predicate_mismatch 8 ⟨"imagez", 4, [], false⟩ (by decide) rfl

end OpsGpu
